import Mathlib

/-
Shallow embedding of the Gatsby develop-SSR render-dispatch subsystem:
  * src/packages/gatsby/src/services/develop-html-route/index.ts
  * src/packages/gatsby/src/utils/dev-ssr/render-dev-html.ts
JavaScript strings are Lean Strings; a JS `undefined` value is `none`;
a JS NaN number (line/column positions only take Nat values here) is `none`.
The string primitives (split, number parsing, suffix test) are defined by
structural recursion over the character list so that every definition
evaluates inside the kernel.
-/

/-- JS `s.split(sep)` for a single-character separator (the source only splits
on "\n", ":" and `path.sep`): accumulator-passing splitter; splitting the
empty string yields `[""]`, like in JS. -/
def jsSplitAux (sep : Char) : List Char → List Char → List (List Char)
  | [], acc => [acc.reverse]
  | c :: rest, acc =>
    if c = sep then acc.reverse :: jsSplitAux sep rest []
    else jsSplitAux sep rest (c :: acc)

/-- JS `s.split(sep)` for a one-character separator string. -/
def jsSplit (sep : Char) (s : String) : List String :=
  (jsSplitAux sep s.toList []).map String.mk

/-- JS array indexing `arr[i]` with a possibly negative index: a negative or
out-of-range index yields `undefined` (`none`), it never throws. -/
def jsIndex (l : List String) (i : Int) : Option String :=
  if i < 0 then none else l.get? i.toNat

/-- Decimal digit value of a character, if it is a digit. -/
def charDigit (c : Char) : Option Nat :=
  if '0' ≤ c ∧ c ≤ '9' then some (c.toNat - '0'.toNat) else none

/-- Accumulator pass of decimal string parsing; any non-digit character makes
the whole string parse to NaN (`none`). -/
def digitsToNatAux : List Char → Nat → Option Nat
  | [], acc => some acc
  | c :: rest, acc =>
    match charDigit c with
    | some d => digitsToNatAux rest (acc * 10 + d)
    | none => none

/-- JS `Number(x)` restricted to the values getPosition feeds it:
`Number(undefined)` is NaN (`none`), `Number("")` is 0, a digit string is its
value, any other string is NaN. -/
def jsNumber : Option String → Option Nat
  | none => none
  | some s => digitsToNatAux s.toList 0

/-- JS truthiness of a possibly-undefined string: `undefined` and `""` are
falsy, every other string is truthy. -/
def jsTruthy : Option String → Bool
  | none => false
  | some s => s ≠ ""

/-- The test of the regex `/\(.+?\)$/` on a single stack line (lines never
contain a newline, so `.` matches every character): the line ends in a close
paren and some open paren sits at least two characters before that final
close paren. -/
def regexTestParen (s : String) : Bool :=
  let cs := s.toList
  (cs.getLast? = some ')') && cs.dropLast.dropLast.contains '('

/-- Group 1 of `line.match(/(?:\()(.+?)(?:\))$/)`: the regex engine takes the
leftmost viable start, i.e. the first open paren, and the lazy `.+?` together
with the `$` anchor stretches the group to just before the final close paren.
`none` models a `null` match result. -/
def jsMatchParenGroup (s : String) : Option String :=
  if regexTestParen s then
    let cs := s.toList.dropLast
    some (String.mk (cs.drop (cs.findIdx (fun c => c = '(') + 1)))
  else none

/-- Position data produced by getPosition (develop-html-route/index.ts).
`filename = none` models `undefined`; `line/row = none` model NaN. -/
structure IErrorPosition where
  filename : Option String
  line : Option Nat
  row : Option Nat
deriving Repr, DecidableEq

/-- getPosition (develop-html-route/index.ts): filters the stack lines for the
paren-suffix shape, takes group 1 of the first match (or falls back to the
first raw line), splits on ":" and reads the three rightmost segments.  The
source wraps the body in try/catch; a `none` in `attempt` is a thrown
exception (null-match indexing, or `stackObject[0]` access on an empty array)
and lands in the catch branch producing `"" / 0 / 0`. -/
def getPosition (stackObject : List String) : IErrorPosition :=
  let filteredStack := stackObject.filter regexTestParen
  let attempt : Option (Option String × Option Nat × Option Nat) :=
    match filteredStack with
    | l :: _ =>
        (jsMatchParenGroup l).map (fun g =>
          let splitLine := jsSplit ':' g
          let n : Int := splitLine.length
          (jsIndex splitLine (n - 3),
           jsNumber (jsIndex splitLine (n - 2)),
           jsNumber (jsIndex splitLine (n - 1))))
    | [] =>
        stackObject.head?.map (fun l0 =>
          let splitLine := jsSplit ':' l0
          let n : Int := splitLine.length
          (jsIndex splitLine (n - 3),
           jsNumber (jsIndex splitLine (n - 2)),
           jsNumber (jsIndex splitLine (n - 1))))
  match attempt with
  | some (f, ln, r) => ⟨f, ln, r⟩
  | none => ⟨some "", some 0, some 0⟩

instance {ε α : Type} [DecidableEq ε] [DecidableEq α] : DecidableEq (Except ε α)
  | .error a, .error b =>
      if h : a = b then isTrue (by rw [h]) else isFalse (by simp [h])
  | .error _, .ok _ => isFalse (by simp)
  | .ok _, .error _ => isFalse (by simp)
  | .ok a, .ok b =>
      if h : a = b then isTrue (by rw [h]) else isFalse (by simp [h])

/-- A thrown JS error value as the route handler observes it. -/
structure JsError where
  stack : Option String
  message : Option String
  type : Option String
  name : String
deriving Repr, DecidableEq

/-- An exception raised by the embedded JS code itself. -/
inductive JsException
  | typeError
  | fsError
deriving Repr, DecidableEq

/-- `path.sep` on POSIX. -/
def pathSep : Char := '/'

/-- Collapses runs of consecutive separators, the only normalization
`path.join` performs on the argument shapes parseError produces (non-empty
absolute first segment, no dot segments). -/
def collapseGo : List Char → List Char
  | [] => []
  | c :: rest =>
    match rest with
    | '/' :: _ => if c = '/' then collapseGo rest else c :: collapseGo rest
    | _ => c :: collapseGo rest

/-- Joins character lists with a separator character. -/
def joinWithSep (sep : Char) : List (List Char) → List Char
  | [] => []
  | [x] => x
  | x :: y :: rest => x ++ sep :: joinWithSep sep (y :: rest)

/-- Node `path.join` restricted to the argument shapes parseError produces:
drop empty segments, join with the separator, collapse duplicate
separators; an empty argument list yields ".". -/
def pathJoin (parts : List String) : String :=
  let joined := joinWithSep pathSep ((parts.filter (fun p => p ≠ "")).map String.toList)
  if joined = [] then "." else String.mk (collapseGo joined)

/-- The diagnostic record built by parseError. -/
structure IParsedError where
  filename : String
  code : String
  codeFrame : String
  line : Option Nat
  row : Option Nat
  message : String
  type : String
  stack : String
deriving Repr, DecidableEq

/-- External collaborators of the route handler: the project root
(`program.directory`), the file system (`fs.readFileSync`, `none` means the
read throws), and the colorized excerpt renderer
(`ansiHTML ∘ codeFrameColumns`, an external library treated as an opaque pure
function of the file text and the position). -/
structure RouteEnv where
  directory : String
  fsRead : String → Option String
  codeFrame : String → Option Nat → Option Nat → String

/-- parseError (develop-html-route/index.ts).  Faithful to the source: only
getPosition is protected by a try/catch.  When `position.filename` is
`undefined`, `position.filename.split(path.sep)` throws a TypeError; when
`fs.readFileSync(filename)` fails it throws; both escape parseError. -/
def parseError (env : RouteEnv) (err : JsError) : Except JsException IParsedError :=
  let stack := if jsTruthy err.stack then err.stack.getD "" else ""
  let stackObject := jsSplit '\n' stack
  let position := getPosition stackObject
  match position.filename with
  | none => .error .typeError
  | some pf =>
    let filename := pathJoin (env.directory :: (jsSplit pathSep pf).drop 2)
    match env.fsRead filename with
    | none => .error .fsError
    | some code =>
      let codeFrame := env.codeFrame code position.line position.row
      let splitMessage :=
        if jsTruthy err.message then jsSplit '\n' (err.message.getD "") else [""]
      let message := splitMessage.getLastD ""
      let typ := if jsTruthy err.type then err.type.getD "" else err.name
      .ok { filename := filename, code := code, codeFrame := codeFrame,
            line := position.line, row := position.row,
            message := message, type := typ, stack := stack }

/-
Worker pool (utils/dev-ssr/render-dev-html.ts).  Pools are identified by the
order of their creation; the module-level mutable `worker` variable, the set
of pools whose end() has been called, and the warming calls that have been
issued but whose promise has not yet settled are explicit state.
-/

/-- A render job as passed to the worker's renderHTML operation.  The warming
call passes only the warming marker; real calls pass the three paths. -/
structure RenderJob where
  path : Option String
  htmlComponentRendererPath : Option String
  directory : Option String
  warming : Bool
deriving Repr, DecidableEq

/-- The job object of the warming call: renderHTML with warming true. -/
def warmingJob : RenderJob :=
  { path := none, htmlComponentRendererPath := none, directory := none,
    warming := true }

/-- The job object renderDevHTML submits for a real request. -/
def mkRenderJob (path htmlComponentRendererPath directory : String) : RenderJob :=
  { path := some path,
    htmlComponentRendererPath := some htmlComponentRendererPath,
    directory := some directory, warming := false }

/-- A JS value a worker render call can settle with: a plain string, an array
of strings, or undefined. -/
inductive JsValue
  | str (s : String)
  | arr (elems : List String)
  | undef
deriving Repr, DecidableEq

/-- Module state of render-dev-html.ts: the id the next created pool will
get, the module-level `worker` variable (undefined before initDevWorkerPool),
the pools whose end() has been called, and the pool ids whose warming render
promise is still unsettled. -/
structure WorkerPoolState where
  nextId : Nat
  worker : Option Nat
  ended : List Nat
  pendingWarming : List Nat
deriving Repr, DecidableEq

/-- State before any pool exists. -/
def poolState0 : WorkerPoolState :=
  { nextId := 0, worker := none, ended := [], pendingWarming := [] }

/-- Observable calls made by the pool lifecycle functions. -/
inductive PoolEvent
  | created (id : Nat)
  | renderCall (id : Nat) (job : RenderJob)
  | awaitedRender (id : Nat)
  | returned (id : Nat)
  | endCalled (id : Nat)
deriving Repr, DecidableEq

/-- True for a render call carrying the warming marker. -/
def poolIsWarmingCall : PoolEvent → Bool
  | .renderCall _ j => j.warming
  | _ => false

/-- True for an await of a render promise. -/
def poolIsAwait : PoolEvent → Bool
  | .awaitedRender _ => true
  | _ => false

/-- startWorker (render-dev-html.ts): constructs a JestWorker, immediately
issues the warming renderHTML call without awaiting it (the returned promise
stays pending when startWorker returns), and returns the handle.  The emitted
trace records the calls in source order; it contains no awaitedRender
event because the source never awaits the warming promise. -/
def startWorker (s : WorkerPoolState) : Nat × WorkerPoolState × List PoolEvent :=
  (s.nextId,
   { s with nextId := s.nextId + 1,
            pendingWarming := s.pendingWarming ++ [s.nextId] },
   [.created s.nextId, .renderCall s.nextId warmingJob, .returned s.nextId])

/-- Settling of a warming promise, a step separate from (and later than) the
return of startWorker. -/
def completeWarming (s : WorkerPoolState) (id : Nat) : WorkerPoolState :=
  { s with pendingWarming := s.pendingWarming.erase id }

/-- initDevWorkerPool (render-dev-html.ts): worker = startWorker(). -/
def initDevWorkerPool (s : WorkerPoolState) : WorkerPoolState × List PoolEvent :=
  match startWorker s with
  | (id, s2, tr) => ({ s2 with worker := some id }, tr)

/-- restartWorker (render-dev-html.ts): remembers the old handle, creates the
fresh pool, swaps the module-level handle, and only then calls end() on the
old pool.  Calling end() on an undefined old handle (no pool ever started)
would throw a TypeError. -/
def restartWorker (s : WorkerPoolState) :
    Except JsException (WorkerPoolState × List PoolEvent) :=
  let oldWorker := s.worker
  match startWorker s with
  | (newId, s2, tr) =>
    let s3 := { s2 with worker := some newId }
    match oldWorker with
    | some o => .ok ({ s3 with ended := s3.ended ++ [o] }, tr ++ [.endCalled o])
    | none => .error .typeError

/-- The module state restartWorker leaves behind when the old handle was
`old`: the fresh pool s.nextId is created, becomes the current worker, and
the old pool is appended to the ended list. -/
def afterRestart (s : WorkerPoolState) (old : Nat) : WorkerPoolState :=
  { nextId := s.nextId + 1, worker := some s.nextId,
    ended := s.ended ++ [old],
    pendingWarming := s.pendingWarming ++ [s.nextId] }

/-- The call trace of a restart whose old handle was `old`. -/
def restartTrace (s : WorkerPoolState) (old : Nat) : List PoolEvent :=
  [.created s.nextId, .renderCall s.nextId warmingJob, .returned s.nextId,
   .endCalled old]

/-- The error a JS call `worker.renderHTML(...)` raises when `worker` is
undefined; the promise executor's try/catch turns it into a rejection. -/
def jsUndefinedCallError : JsError :=
  { stack := none, message := some "worker.renderHTML is not a function",
    type := none, name := "TypeError" }

/-- renderDevHTML (render-dev-html.ts): reads the module-level `worker`
variable at call time (never caches it), forwards the single-path job to that
pool's renderHTML, resolves with the worker response unchanged and rejects
with the worker error unchanged.  The worker side (render-dev-html-child) is
not among the sources; its render operation is the environment function
`render`, indexed by pool id.
Modelled from the spec: the missing render-dev-html-child operation is
`render(job) -> sequence of rendered strings` (or a thrown error), so the
environment returns an `Except JsError JsValue`. -/
def renderDevHTML (render : Nat → RenderJob → Except JsError JsValue)
    (s : WorkerPoolState) (path htmlComponentRendererPath directory : String) :
    Except JsError JsValue :=
  match s.worker with
  | none => .error jsUndefinedCallError
  | some w => render w (mkRenderJob path htmlComponentRendererPath directory)

/-- The Render Dispatcher as the spec sentence of claim C5 words it: resolve
with the FIRST ELEMENT of the RenderResult sequence (kept verbatim from the
claim to compare against `renderDevHTML`, which is translated from the
source). -/
def renderDevHTMLClaimed (render : Nat → RenderJob → Except JsError JsValue)
    (s : WorkerPoolState) (path htmlComponentRendererPath directory : String) :
    Except JsError JsValue :=
  match s.worker with
  | none => .error jsUndefinedCallError
  | some w =>
    (render w (mkRenderJob path htmlComponentRendererPath directory)).map
      (fun v => match v with
        | .arr elems => .str (elems.headD "")
        | v => v)

/-
Request gate (develop-html-route/index.ts).

The onReceive listener and the app.get handler.  The handler is a step
machine: each step consumes one observation of the environment (whether the
stored resolver has been invoked by the listener, and the current value of
program.developMachineService._state.value) and moves the handler through its
suspension points in source order.
-/

/-- Outcome of one run of the onReceive listener. -/
inductive ListenerOutcome
  | resolved (r : Nat)
  | threw
  | ignored
deriving Repr, DecidableEq

/-- The onReceive listener (develop-html-route/index.ts): on an event of type
SEND_DEVELOP_HTML_RESPONSES it calls outsideResolve(); calling it while the
variable is still undefined throws a TypeError.  Any other event type takes
no action.  The returned option is the value of the outsideResolve slot after
the listener ran (the listener never writes the slot). -/
def onReceiveListener (eventType : String) (outsideResolve : Option Nat) :
    ListenerOutcome × Option Nat :=
  if eventType = "SEND_DEVELOP_HTML_RESPONSES" then
    match outsideResolve with
    | none => (.threw, none)
    | some r => (.resolved r, some r)
  else (.ignored, outsideResolve)

/-- One observation of the handler's environment at a suspension point:
whether the SEND_DEVELOP_HTML_RESPONSES acknowledgment has invoked the stored
resolver, and the state-machine value the poll reads. -/
structure GateEnv where
  ack : Bool
  machineState : String
deriving Repr, DecidableEq

/-- Control point of one inbound request inside the app.get handler. -/
inductive GatePhase
  | start
  | awaitAck
  | pollMachine
  | rendering
  | passedThrough
  | responded (status : Nat)
  | crashed
deriving Repr, DecidableEq

/-- Observable actions of the handler, in source order. -/
inductive GateEvent
  | nextCalled
  | resolverStored
  | signalSent
  | spanStarted
  | renderCalled
  | sent (status : Nat)
  | spanEnded
deriving Repr, DecidableEq

/-- True for a response-writing event. -/
def isSendEvent : GateEvent → Bool
  | .sent _ => true
  | _ => false

/-- Static data of one request: the page registry, the request path, the
value the awaited renderHTML call settles with, and the externals parseError
uses. -/
structure GateConfig where
  pages : List String
  reqPath : String
  renderOutcome : Except JsError (List String)
  routeEnv : RouteEnv

/-- One step of the app.get handler.
start: pages.has(req.path) gates the whole handler; a registered path stores
  the resolver and sends DEVELOP_HTML_REQUEST_RECEIVED, otherwise next().
awaitAck: the first awaited promise; it resolves only when the listener has
  invoked the stored resolver.
pollMachine: the second awaited promise; it resolves only on observing
  _state.value == "waiting" (the 50ms interval re-checks otherwise).
rendering: htmlActivity.start() and the renderHTML call happened on entering
  this phase; the awaited outcome either sends 200 and ends the span, or
  enters the catch block where parseError either yields the diagnostic
  (send 500, end the span) or itself throws, aborting the handler before
  res.send and before htmlActivity.end().
The three final phases absorb. -/
def gateStep (cfg : GateConfig) (e : GateEnv) : GatePhase → GatePhase × List GateEvent
  | .start =>
    if cfg.reqPath ∈ cfg.pages then (.awaitAck, [.resolverStored, .signalSent])
    else (.passedThrough, [.nextCalled])
  | .awaitAck =>
    if e.ack then (.pollMachine, []) else (.awaitAck, [])
  | .pollMachine =>
    if e.machineState = "waiting" then (.rendering, [.spanStarted, .renderCalled])
    else (.pollMachine, [])
  | .rendering =>
    match cfg.renderOutcome with
    | .ok _ => (.responded 200, [.sent 200, .spanEnded])
    | .error err =>
      match parseError cfg.routeEnv err with
      | .ok _ => (.responded 500, [.sent 500, .spanEnded])
      | .error _ => (.crashed, [])
  | .passedThrough => (.passedThrough, [])
  | .responded st => (.responded st, [])
  | .crashed => (.crashed, [])

/-- The handler's phase after n steps under the environment observations env. -/
def gateRun (cfg : GateConfig) (env : Nat → GateEnv) : Nat → GatePhase
  | 0 => .start
  | n + 1 => (gateStep cfg (env n) (gateRun cfg env n)).1

/-- The events the handler performs during step n. -/
def gateEventsAt (cfg : GateConfig) (env : Nat → GateEnv) (n : Nat) : List GateEvent :=
  (gateStep cfg (env n) (gateRun cfg env n)).2

/-- True when, at some step before n, the handler was suspended on the first
promise and the acknowledgment resolved the stored resolver there. -/
def ackResolvedBefore (cfg : GateConfig) (env : Nat → GateEnv) : Nat → Bool
  | 0 => false
  | n + 1 =>
    ackResolvedBefore cfg env n ||
      (match gateRun cfg env n with
       | .awaitAck => (env n).ack
       | _ => false)

/-
Concrete fixtures used by the witnesses, counterexamples and bug traces.
-/

/-- Externals for runs whose render succeeds (never consulted). -/
def routeEnvOk : RouteEnv :=
  { directory := "/project"
  , fsRead := fun _ => some "file text"
  , codeFrame := fun _ _ _ => "frame" }

/-- Externals for the crash trace: the file system would happily serve any
file, isolating the crash to the undefined-filename TypeError. -/
def routeEnvCrash : RouteEnv :=
  { directory := "/project"
  , fsRead := fun _ => some "file text"
  , codeFrame := fun _ _ _ => "frame" }

/-- The claim C3 stack line. -/
def stackLineC3 : String := "at f (/project/lib/render-page.js:42:7)"

/-- Externals for the claim C3 run: the file system serves exactly the
reconstructed filename. -/
def routeEnvC3 : RouteEnv :=
  { directory := "/project"
  , fsRead := fun p => if p = "/project/lib/render-page.js" then some "source text" else none
  , codeFrame := fun _ _ _ => "frame" }

/-- An error whose stack is the claim C3 line. -/
def errC3 : JsError :=
  { stack := some stackLineC3, message := some "boom", type := none, name := "Error" }

/-- An error whose stack is the single unparsable line "garbage". -/
def errGarbage : JsError :=
  { stack := some "garbage", message := some "boom", type := none, name := "Error" }

/-- Request configuration for a registered path whose render succeeds. -/
def cfgW : GateConfig :=
  { pages := ["/about"], reqPath := "/about",
    renderOutcome := .ok ["<html>About</html>"], routeEnv := routeEnvOk }

/-- Environment where the acknowledgment arrives while the machine is still
busy (step 1), the machine stays busy one more poll (step 2), and only then
reaches waiting (step 3). -/
def envW : Nat → GateEnv := fun n =>
  if n = 0 then ⟨false, "busy"⟩
  else if n ≤ 2 then ⟨true, "busy"⟩
  else ⟨true, "waiting"⟩

/-- Request configuration for an unregistered path. -/
def cfgU : GateConfig :=
  { pages := ["/about"], reqPath := "/nope",
    renderOutcome := .ok ["<html>About</html>"], routeEnv := routeEnvOk }

/-- Request configuration whose render rejects with the unparsable-stack
error. -/
def cfgCrash : GateConfig :=
  { pages := ["/boom"], reqPath := "/boom",
    renderOutcome := .error errGarbage, routeEnv := routeEnvCrash }

/-- Environment that is immediately acknowledged and idle. -/
def envReady : Nat → GateEnv := fun _ => ⟨true, "waiting"⟩

/-- A worker whose render operation always succeeds with a one-element
RenderResult. -/
def renderOne : Nat → RenderJob → Except JsError JsValue :=
  fun _ _ => .ok (.arr ["<html>About</html>"])

/-- Module state after initDevWorkerPool: pool 0 exists and is current. -/
def poolInit1 : WorkerPoolState := (initDevWorkerPool poolState0).1

/-
Helper lemmas shared by the claim theorems.
-/

/-- A handler can only be suspended in the poll loop after the first awaited
promise was resolved by the acknowledgment. -/
theorem reachPollAck (cfg : GateConfig) (env : Nat → GateEnv) :
    ∀ n, gateRun cfg env n = .pollMachine → ackResolvedBefore cfg env n = true := by
  intro n
  induction n with
  | zero => intro h; simp [gateRun] at h
  | succ k ih =>
    intro h
    have h' : (gateStep cfg (env k) (gateRun cfg env k)).1 = GatePhase.pollMachine := h
    cases hp : gateRun cfg env k with
    | start =>
      rw [hp] at h'
      by_cases hm : cfg.reqPath ∈ cfg.pages <;> simp [gateStep, hm] at h'
    | awaitAck =>
      rw [hp] at h'
      cases hack : (env k).ack with
      | false => simp [gateStep, hack] at h'
      | true => simp [ackResolvedBefore, hp, hack]
    | pollMachine =>
      have hk := ih hp
      simp [ackResolvedBefore, hk]
    | rendering =>
      rw [hp] at h'
      cases hro : cfg.renderOutcome with
      | error e =>
        cases hpe : parseError cfg.routeEnv e with
        | error ex => simp [gateStep, hro, hpe] at h'
        | ok dd => simp [gateStep, hro, hpe] at h'
      | ok v => simp [gateStep, hro] at h'
    | passedThrough => rw [hp] at h'; simp [gateStep] at h'
    | responded st => rw [hp] at h'; simp [gateStep] at h'
    | crashed => rw [hp] at h'; simp [gateStep] at h'

/-- After rejecting an unregistered path, the handler stays passed-through. -/
theorem gatePassedForever (cfg : GateConfig) (env : Nat → GateEnv)
    (h : cfg.reqPath ∉ cfg.pages) : ∀ k, gateRun cfg env (k + 1) = .passedThrough := by
  intro k
  induction k with
  | zero =>
    have h1 : gateRun cfg env 1 = (gateStep cfg (env 0) .start).1 := rfl
    rw [h1]; simp [gateStep, h]
  | succ j ih =>
    have h1 : gateRun cfg env (j + 2) =
        (gateStep cfg (env (j + 1)) (gateRun cfg env (j + 1))).1 := rfl
    rw [h1, ih]; simp [gateStep]

/-- The crash-trace run is stuck in the crashed phase from step 4 on. -/
theorem crashRunStable : ∀ n, 4 ≤ n → gateRun cfgCrash envReady n = .crashed := by
  intro n
  induction n with
  | zero => intro h; omega
  | succ k ih =>
    intro h
    by_cases hk : 4 ≤ k
    · have h1 : gateRun cfgCrash envReady (k + 1) =
          (gateStep cfgCrash (envReady k) (gateRun cfgCrash envReady k)).1 := rfl
      rw [h1, ih hk]; simp [gateStep]
    · have hk3 : k = 3 := by omega
      subst hk3; decide

/-- From step 3 on, the crash trace performs no further observable action. -/
theorem crashEventsEmpty : ∀ n, 3 ≤ n → gateEventsAt cfgCrash envReady n = [] := by
  intro n h
  by_cases h4 : 4 ≤ n
  · have h1 : gateEventsAt cfgCrash envReady n =
        (gateStep cfgCrash (envReady n) (gateRun cfgCrash envReady n)).2 := rfl
    rw [h1, crashRunStable n h4]; simp [gateStep]
  · have h3 : n = 3 := by omega
    subst h3; decide

/-
Claim theorems.
-/

/-- C1 (confirmed): whenever the handler invokes renderHTML at step n, the
machine state observed at that step equals "waiting", the handler was
suspended in the poll loop, and at some earlier step the
SEND_DEVELOP_HTML_RESPONSES acknowledgment had already resolved the stored
pending resolver; in particular an acknowledgment arriving while the machine
is busy cannot trigger a dispatch before the state reads "waiting". -/
theorem gate_blocks_render_until_ack_and_waiting (cfg : GateConfig)
    (env : Nat → GateEnv) (n : Nat)
    (hr : GateEvent.renderCalled ∈ gateEventsAt cfg env n) :
    (env n).machineState = "waiting" ∧ gateRun cfg env n = .pollMachine ∧
      ackResolvedBefore cfg env n = true := by
  have key : gateRun cfg env n = .pollMachine ∧ (env n).machineState = "waiting" := by
    have h' : GateEvent.renderCalled ∈ (gateStep cfg (env n) (gateRun cfg env n)).2 := hr
    cases hp : gateRun cfg env n with
    | start =>
      rw [hp] at h'
      by_cases hm : cfg.reqPath ∈ cfg.pages <;> simp [gateStep, hm] at h'
    | awaitAck =>
      rw [hp] at h'
      cases hack : (env n).ack <;> simp [gateStep, hack] at h'
    | pollMachine =>
      rw [hp] at h'
      by_cases hms : (env n).machineState = "waiting"
      · exact ⟨rfl, hms⟩
      · simp [gateStep, hms] at h'
    | rendering =>
      rw [hp] at h'
      cases hro : cfg.renderOutcome with
      | error e =>
        cases hpe : parseError cfg.routeEnv e with
        | error ex => simp [gateStep, hro, hpe] at h'
        | ok dd => simp [gateStep, hro, hpe] at h'
      | ok v => simp [gateStep, hro] at h'
    | passedThrough => rw [hp] at h'; simp [gateStep] at h'
    | responded st => rw [hp] at h'; simp [gateStep] at h'
    | crashed => rw [hp] at h'; simp [gateStep] at h'
  exact ⟨key.2, key.1, reachPollAck cfg env n key.1⟩

/-- C1 witness: in the run where the acknowledgment arrives at step 1 while
the machine is busy and the machine only reaches "waiting" at step 3, the
render call happens at step 3 and the theorem's conclusions hold there. -/
theorem gate_blocks_render_until_ack_and_waiting_witness :
    GateEvent.renderCalled ∈ gateEventsAt cfgW envW 3 ∧
      ((envW 3).machineState = "waiting" ∧ gateRun cfgW envW 3 = .pollMachine ∧
        ackResolvedBefore cfgW envW 3 = true) :=
  ⟨by decide, gate_blocks_render_until_ack_and_waiting cfgW envW 3 (by decide)⟩

/-- C9 (confirmed): a request for a path absent from the page registry
performs exactly one observable action, calling next() at step 0; it never
stores a resolver, never signals the state machine, never invokes renderHTML
and writes no response. -/
theorem unregistered_path_passthrough (cfg : GateConfig) (env : Nat → GateEnv)
    (k : Nat) (h : cfg.reqPath ∉ cfg.pages) :
    gateEventsAt cfg env 0 = [GateEvent.nextCalled] ∧
    (0 < k → gateEventsAt cfg env k = []) ∧
    GateEvent.renderCalled ∉ gateEventsAt cfg env k ∧
    GateEvent.signalSent ∉ gateEventsAt cfg env k ∧
    GateEvent.resolverStored ∉ gateEventsAt cfg env k ∧
    (gateEventsAt cfg env k).all (fun e => !isSendEvent e) = true := by
  have h0 : gateEventsAt cfg env 0 = [GateEvent.nextCalled] := by
    simp [gateEventsAt, gateRun, gateStep, h]
  have hk : ∀ j, gateEventsAt cfg env (j + 1) = [] := by
    intro j
    have h1 : gateEventsAt cfg env (j + 1) =
        (gateStep cfg (env (j + 1)) (gateRun cfg env (j + 1))).2 := rfl
    rw [h1, gatePassedForever cfg env h j]; simp [gateStep]
  refine ⟨h0, ?_, ?_, ?_, ?_, ?_⟩
  · intro hkpos
    cases k with
    | zero => omega
    | succ j => exact hk j
  all_goals
    cases k with
    | zero => rw [h0]; decide
    | succ j => rw [hk j]; decide

/-- C9 witness: the concrete unregistered request path "/nope" against the
registry containing only "/about". -/
theorem unregistered_path_passthrough_witness :
    cfgU.reqPath ∉ cfgU.pages ∧
    gateEventsAt cfgU envW 0 = [GateEvent.nextCalled] ∧
    gateEventsAt cfgU envW 5 = [] ∧
    GateEvent.renderCalled ∉ gateEventsAt cfgU envW 5 ∧
    GateEvent.signalSent ∉ gateEventsAt cfgU envW 5 ∧
    GateEvent.resolverStored ∉ gateEventsAt cfgU envW 5 ∧
    (gateEventsAt cfgU envW 5).all (fun e => !isSendEvent e) = true := by
  have h : cfgU.reqPath ∉ cfgU.pages := by decide
  have h2 := unregistered_path_passthrough cfgU envW 5 h
  exact ⟨h, h2.1, h2.2.1 (by decide), h2.2.2.1, h2.2.2.2.1, h2.2.2.2.2.1,
    h2.2.2.2.2.2⟩

/-- C2 (code bug): a render rejection whose stack is the single unparsable
line "garbage" makes parseError itself throw a TypeError
(position.filename is undefined and .split is called on it), so the catch
block aborts before res.status(500).send: the handler run reaches the
crashed phase, no 500 (and no 200) response is ever written, and the failure
escapes the handler instead of being turned into a diagnostic page. -/
theorem parse_error_crash_escapes_handler :
    parseError routeEnvCrash errGarbage = .error .typeError ∧
    gateRun cfgCrash envReady 3 = .rendering ∧
    gateRun cfgCrash envReady 4 = .crashed ∧
    (∀ n, GateEvent.sent 500 ∉ gateEventsAt cfgCrash envReady n) ∧
    (∀ n, GateEvent.sent 200 ∉ gateEventsAt cfgCrash envReady n) := by
  refine ⟨by decide, by decide, by decide, ?_, ?_⟩
  all_goals
    intro n
    by_cases h3 : 3 ≤ n
    · rw [crashEventsEmpty n h3]; decide
    · rcases (by omega : n = 0 ∨ n = 1 ∨ n = 2) with rfl | rfl | rfl <;> decide

/-- C8 (code bug): in the same crash trace the span is started when the
render call is dispatched at step 2, but because parseError throws inside the
catch block, htmlActivity.end() is never reached: no step of the run ever
emits the span-end action. -/
theorem span_not_ended_when_parse_error_throws :
    gateEventsAt cfgCrash envReady 2 = [GateEvent.spanStarted, GateEvent.renderCalled] ∧
    gateRun cfgCrash envReady 4 = .crashed ∧
    (∀ n, GateEvent.spanEnded ∉ gateEventsAt cfgCrash envReady n) := by
  refine ⟨by decide, by decide, ?_⟩
  intro n
  by_cases h3 : 3 ≤ n
  · rw [crashEventsEmpty n h3]; decide
  · rcases (by omega : n = 0 ∨ n = 1 ∨ n = 2) with rfl | rfl | rfl <;> decide

/-- C4 (code bug): on the single unparsable stack line "garbage" getPosition
does not raise, but it returns filename undefined, line NaN and row NaN
(negative JS array indexing yields undefined instead of throwing, so the
soft-fail catch that would produce the empty filename and zeros never
fires). -/
theorem get_position_garbage_returns_undefined_nan :
    getPosition (jsSplit '\n' "garbage") =
      { filename := none, line := none, row := none } ∧
    getPosition (jsSplit '\n' "garbage") ≠
      { filename := some "", line := some 0, row := some 0 } := by decide

/-- C3 counterexample: for the stack line
"at f (/project/lib/render-page.js:42:7)" and project root "/project" the
reconstructed filename is not "/project/render-page.js". -/
theorem filename_reconstruction_counterexample :
    (parseError routeEnvC3 errC3).toOption.map IParsedError.filename =
      some "/project/lib/render-page.js" ∧
    (parseError routeEnvC3 errC3).toOption.map IParsedError.filename ≠
      some "/project/render-page.js" := by decide

/-- C3 (corrected): on that stack line the parsed position is the full path
"/project/lib/render-page.js" with line 42 and column 7, and the slice(2)
reconstruction drops the leading empty segment and "project" before joining
against the root, reproducing "/project/lib/render-page.js" (the "/lib/"
segment is not removed). -/
theorem filename_reconstruction_amended :
    getPosition [stackLineC3] =
      { filename := some "/project/lib/render-page.js", line := some 42,
        row := some 7 } ∧
    (parseError routeEnvC3 errC3).toOption.map
        (fun dd => (dd.filename, dd.line, dd.row)) =
      some ("/project/lib/render-page.js", some 42, some 7) := by decide

/-- C5 counterexample: with the current pool resolving the render call with
the one-element RenderResult sequence, renderDevHTML resolves with that whole
sequence, which differs from resolving with its first element as the claim
words it. -/
theorem render_dev_html_first_element_counterexample :
    renderDevHTML renderOne poolInit1 "/about" "/project/public/render-page.js"
        "/project" = .ok (.arr ["<html>About</html>"]) ∧
    renderDevHTML renderOne poolInit1 "/about" "/project/public/render-page.js"
        "/project" ≠
      renderDevHTMLClaimed renderOne poolInit1 "/about"
        "/project/public/render-page.js" "/project" := by decide

/-- C5 (corrected): renderDevHTML forwards the single-path job to the current
pool and settles exactly as the worker call settles: the resolution value is
the worker response unchanged (not its first element) and a worker rejection
is propagated unchanged. -/
theorem render_dev_html_forwards_response
    (render : Nat → RenderJob → Except JsError JsValue) (s : WorkerPoolState)
    (w : Nat) (p h d : String) (hw : s.worker = some w) :
    renderDevHTML render s p h d = render w (mkRenderJob p h d) := by
  simp [renderDevHTML, hw]

/-- C5 witness: the initialized pool performs the forwarding concretely. -/
theorem render_dev_html_forwards_response_witness :
    poolInit1.worker = some 0 ∧
    renderDevHTML renderOne poolInit1 "/a" "/b" "/c" =
      renderOne 0 (mkRenderJob "/a" "/b" "/c") :=
  ⟨by decide,
   render_dev_html_forwards_response renderOne poolInit1 0 "/a" "/b" "/c"
     (by decide)⟩

/-- C6 (confirmed): restartWorker creates the fresh pool first, swaps the
module-level handle to it, and only then calls end() on the old pool; the
new pool id differs from the old one and is not among the terminated pools,
and a renderDevHTML call made against the post-restart state reads the
current handle and routes to the new pool, never to the terminated one. -/
theorem restart_routes_to_new_pool
    (render : Nat → RenderJob → Except JsError JsValue) (s : WorkerPoolState)
    (old : Nat) (p h d : String) (hw : s.worker = some old)
    (hlt : old < s.nextId) (hend : ∀ i ∈ s.ended, i < s.nextId) :
    restartWorker s = .ok (afterRestart s old, restartTrace s old) ∧
    (afterRestart s old).worker = some s.nextId ∧
    s.nextId ≠ old ∧
    old ∈ (afterRestart s old).ended ∧
    s.nextId ∉ (afterRestart s old).ended ∧
    renderDevHTML render (afterRestart s old) p h d =
      render s.nextId (mkRenderJob p h d) := by
  refine ⟨?_, rfl, by omega, ?_, ?_, ?_⟩
  · simp [restartWorker, startWorker, hw, afterRestart, restartTrace]
  · simp [afterRestart]
  · simp only [afterRestart, List.mem_append, List.mem_singleton]
    intro hmem
    rcases hmem with hmem | hmem
    · exact absurd (hend s.nextId hmem) (by omega)
    · omega
  · simp [renderDevHTML, afterRestart]

/-- C6 witness: restarting the initialized single-pool state swaps from pool
0 to pool 1 and routes a subsequent submission to pool 1. -/
theorem restart_routes_to_new_pool_witness :
    poolInit1.worker = some 0 ∧ 0 < poolInit1.nextId ∧
    (∀ i ∈ poolInit1.ended, i < poolInit1.nextId) ∧
    (restartWorker poolInit1 = .ok (afterRestart poolInit1 0, restartTrace poolInit1 0) ∧
      (afterRestart poolInit1 0).worker = some poolInit1.nextId ∧
      poolInit1.nextId ≠ 0 ∧
      0 ∈ (afterRestart poolInit1 0).ended ∧
      poolInit1.nextId ∉ (afterRestart poolInit1 0).ended ∧
      renderDevHTML renderOne (afterRestart poolInit1 0) "/a" "/b" "/c" =
        renderOne poolInit1.nextId (mkRenderJob "/a" "/b" "/c")) :=
  ⟨by decide, by decide, by decide,
   restart_routes_to_new_pool renderOne poolInit1 0 "/a" "/b" "/c" (by decide)
     (by decide) (by decide)⟩

/-- C7 (confirmed): startWorker's call trace contains exactly one render call
carrying the warming marker and no await of any render promise, and at the
moment startWorker returns its handle the warming call of the new pool is
still pending (its completion is a separate later completeWarming step), so
the warming call never blocks the caller. -/
theorem start_worker_warming_fire_and_forget (s : WorkerPoolState) :
    ((startWorker s).2.2.filter poolIsWarmingCall).length = 1 ∧
    (startWorker s).2.2.filter poolIsAwait = [] ∧
    (startWorker s).1 ∈ (startWorker s).2.1.pendingWarming := by
  refine ⟨?_, ?_, ?_⟩
  · simp [startWorker, poolIsWarmingCall, warmingJob, List.filter]
  · simp [startWorker, poolIsAwait, List.filter]
  · simp [startWorker]

/-- C10 (confirmed): a SEND_DEVELOP_HTML_RESPONSES event arriving while no
request has stored a resolver makes the listener call the undefined
outsideResolve and throw, while an event of any other type leaves the stored
resolver slot unchanged and resolves nothing. -/
theorem listener_undefined_resolver_throws (r : Option Nat) (t : String)
    (ht : t ≠ "SEND_DEVELOP_HTML_RESPONSES") :
    onReceiveListener "SEND_DEVELOP_HTML_RESPONSES" none =
      (ListenerOutcome.threw, none) ∧
    onReceiveListener t r = (ListenerOutcome.ignored, r) := by
  exact ⟨rfl, by simp [onReceiveListener, ht]⟩

/-- C10 witness: the concrete other event type "DONE" with a stored resolver. -/
theorem listener_undefined_resolver_throws_witness :
    ("DONE" ≠ "SEND_DEVELOP_HTML_RESPONSES") ∧
    (onReceiveListener "SEND_DEVELOP_HTML_RESPONSES" none =
        (ListenerOutcome.threw, none) ∧
      onReceiveListener "DONE" (some 5) = (ListenerOutcome.ignored, some 5)) :=
  ⟨by decide, listener_undefined_resolver_throws (some 5) "DONE" (by decide)⟩
